import Mathlib

set_option maxRecDepth 100000

/-!
Verification development for the Resume-Analytics scoring engine
(`backend/scoring.py`, with the keyword-partition construction from
`backend/main.py`).  The Python functions are shallowly embedded:
floats become exact rationals, `datetime.now().year` becomes an explicit
`currentYear` argument, and the regular-expression scans of
`_extract_years_bonus` become deterministic scanners that reproduce
`re.findall`'s leftmost, non-overlapping semantics on these patterns.
-/

/-- Embedding of Python's `str.lower` (ASCII case folding suffices for the
cue lists and patterns used by the scoring module). -/
def lower (s : String) : List Char := s.data.map Char.toLower

/-- Bool-valued "is a leading segment of" test on character lists. -/
def isPrefixL : List Char → List Char → Bool
  | [], _ => true
  | _ :: _, [] => false
  | a :: as, b :: bs => a == b && isPrefixL as bs

/-- Embedding of Python's substring containment `needle in hay`. -/
def isInfixL (needle : List Char) : List Char → Bool
  | [] => needle.isEmpty
  | b :: bs => isPrefixL needle (b :: bs) || isInfixL needle bs

/-- Containment of a (lowercase) cue string in an already-lowercased text. -/
def containsCue (text : List Char) (cue : String) : Bool :=
  isInfixL cue.data text

/-- Value of a decimal digit character. -/
def digitToNat (c : Char) : Nat := c.toNat - 48

/-- Whitespace class of Python's `\s` (ASCII part). -/
def pySpace (c : Char) : Bool :=
  c == ' ' || c == '\t' || c == '\n' || c == '\r' || c == '\x0b' || c == '\x0c'

/-- Greedy run of decimal digits accumulated into a number (`\d+` continued). -/
def takeDigitsGo : List Char → Nat → Nat × List Char
  | [], acc => (acc, [])
  | c :: cs, acc =>
    if c.isDigit then takeDigitsGo cs (acc * 10 + digitToNat c) else (acc, c :: cs)

/-- `(\d+)` : one or more digits, greedy, returning the captured value. -/
def matchDigits1 : List Char → Option (Nat × List Char)
  | [] => none
  | c :: cs => if c.isDigit then some (takeDigitsGo cs (digitToNat c)) else none

/-- `(\d{4})` : exactly four digits, returning the captured value. -/
def matchDigit4 : List Char → Option (Nat × List Char)
  | a :: b :: c :: d :: rest =>
    if a.isDigit && b.isDigit && c.isDigit && d.isDigit then
      some (((digitToNat a * 10 + digitToNat b) * 10 + digitToNat c) * 10 + digitToNat d, rest)
    else none
  | _ => none

/-- `\s*` : drop a greedy run of whitespace. -/
def dropSpaces : List Char → List Char
  | [] => []
  | c :: cs => if pySpace c then dropSpaces cs else c :: cs

/-- `\s+` : at least one whitespace character, greedy. -/
def matchSpaces1 : List Char → Option (List Char)
  | [] => none
  | c :: cs => if pySpace c then some (dropSpaces cs) else none

/-- Literal word match returning the remainder. -/
def matchLit : List Char → List Char → Option (List Char)
  | [], l => some l
  | _ :: _, [] => none
  | a :: as, b :: bs => if a == b then matchLit as bs else none

/-- `c?` : optionally consume one specific character (greedy). -/
def matchOptChar (c : Char) : List Char → List Char
  | [] => []
  | d :: rest => if d == c then rest else d :: rest

def wYear : List Char := ("year").data
def wExperience : List Char := ("experience").data
def wOf : List Char := ("of").data
def wIn : List Char := ("in").data
def wWith : List Char := ("with").data
def wMinimum : List Char := ("minimum").data
def wAt : List Char := ("at").data
def wLeast : List Char := ("least").data
def wPresent : List Char := ("present").data
def wCurrent : List Char := ("current").data
def wDash : List Char := ("-").data

/-- `(?:of\s+)?` : optional "of" followed by whitespace; on failure the
input is left untouched (the only backtracking the pattern can need). -/
def matchOfSp (l : List Char) : List Char :=
  match matchLit wOf l with
  | none => l
  | some r =>
    match matchSpaces1 r with
    | none => l
    | some r2 => r2

/-- Pattern `(\d+)\+?\s*years?\s+(?:of\s+)?experience` at one position. -/
def matchP1 (l : List Char) : Option (Nat × List Char) := do
  let (n, r) ← matchDigits1 l
  let r := matchOptChar '+' r
  let r := dropSpaces r
  let r ← matchLit wYear r
  let r := matchOptChar 's' r
  let r ← matchSpaces1 r
  let r := matchOfSp r
  let r ← matchLit wExperience r
  pure (n, r)

/-- Pattern `(\d+)\+?\s*years?\s+(?:in|with)` at one position. -/
def matchP2 (l : List Char) : Option (Nat × List Char) := do
  let (n, r) ← matchDigits1 l
  let r := matchOptChar '+' r
  let r := dropSpaces r
  let r ← matchLit wYear r
  let r := matchOptChar 's' r
  let r ← matchSpaces1 r
  match matchLit wIn r with
  | some r2 => pure (n, r2)
  | none =>
    match matchLit wWith r with
    | some r2 => pure (n, r2)
    | none => none

/-- Pattern `minimum\s+(\d+)\s+years?` at one position. -/
def matchP3 (l : List Char) : Option (Nat × List Char) := do
  let r ← matchLit wMinimum l
  let r ← matchSpaces1 r
  let (n, r) ← matchDigits1 r
  let r ← matchSpaces1 r
  let r ← matchLit wYear r
  pure (n, matchOptChar 's' r)

/-- Pattern `at\s+least\s+(\d+)\s+years?` at one position. -/
def matchP4 (l : List Char) : Option (Nat × List Char) := do
  let r ← matchLit wAt l
  let r ← matchSpaces1 r
  let r ← matchLit wLeast r
  let r ← matchSpaces1 r
  let (n, r) ← matchDigits1 r
  let r ← matchSpaces1 r
  let r ← matchLit wYear r
  pure (n, matchOptChar 's' r)

/-- Pattern `(\d{4})\s*-\s*(?:present|current|(\d{4}))` at one position;
the second capture is `none` for an open-ended range. -/
def matchDate (l : List Char) : Option ((Nat × Option Nat) × List Char) := do
  let (s, r) ← matchDigit4 l
  let r := dropSpaces r
  let r ← matchLit wDash r
  let r := dropSpaces r
  match matchLit wPresent r with
  | some r2 => pure ((s, none), r2)
  | none =>
    match matchLit wCurrent r with
    | some r2 => pure ((s, none), r2)
    | none =>
      match matchDigit4 r with
      | some (e, r2) => pure ((s, some e), r2)
      | none => none

/-- Fuelled driver of `re.findall`: try the pattern at each position,
left to right; on a match continue after its end (non-overlapping). -/
def scanAllGo {α : Type} (m : List Char → Option (α × List Char)) :
    Nat → List Char → List α
  | 0, _ => []
  | _ + 1, [] => []
  | fuel + 1, c :: rest =>
    match m (c :: rest) with
    | some (a, r) =>
      a :: scanAllGo m fuel (if r.length < rest.length + 1 then r else rest)
    | none => scanAllGo m fuel rest

/-- `re.findall pattern text` for the scorers' patterns. -/
def scanAll {α : Type} (m : List Char → Option (α × List Char)) (l : List Char) : List α :=
  scanAllGo m l.length l

example : scanAll matchP1 (lower ("5+ years experience")) = [5] := by decide
example : scanAll matchP1 (lower ("10 Years of Experience and 3+ years experience")) = [10, 3] := by decide
example : scanAll matchP2 (lower ("4 years in finance")) = [4] := by decide
example : scanAll matchP3 (lower ("minimum 6 years")) = [6] := by decide
example : scanAll matchP4 (lower ("at least 2 years")) = [2] := by decide
example : scanAll matchDate (lower ("2019 - present, 1995-2000")) = [(2019, none), (1995, some 2000)] := by decide
example : scanAll matchDate (lower ("12345 - present")) = [(2345, none)] := by decide

/-- JD junior-seniority cues (`junior_indicators_jd` in `scoring.py`). -/
def juniorIndicatorsJd : List String :=
  ["junior", "entry", "entry-level", "graduate", "new grad",
   "0-2 years", "0-3 years", "early career", "associate",
   "bootcamp", "internship", "trainee"]

/-- JD senior-seniority cues (`senior_indicators_jd`). -/
def seniorIndicatorsJd : List String :=
  ["senior", "lead", "principal", "staff", "architect",
   "manager", "director", "5+ years", "3+ years",
   "experienced", "expert", "advanced"]

/-- Resume junior-seniority cues (`junior_indicators_resume`). -/
def juniorIndicatorsResume : List String :=
  ["intern", "internship", "graduate", "bootcamp", "entry",
   "junior", "associate", "trainee", "apprentice",
   "recent graduate", "new to", "learning"]

/-- Resume senior-seniority cues (`senior_indicators_resume`). -/
def seniorIndicatorsResume : List String :=
  ["lead", "senior", "principal", "manager", "director",
   "architect", "staff", "expert", "experienced",
   "mentored", "managed team", "led team", "supervised"]

/-- `jd_is_junior`: some junior cue occurs in the lowercased JD text. -/
def jdIsJunior (jdText : String) : Bool :=
  juniorIndicatorsJd.any fun cue => containsCue (lower jdText) cue

/-- `jd_is_senior`. -/
def jdIsSenior (jdText : String) : Bool :=
  seniorIndicatorsJd.any fun cue => containsCue (lower jdText) cue

/-- `resume_is_junior`. -/
def resumeIsJunior (resumeText : String) : Bool :=
  juniorIndicatorsResume.any fun cue => containsCue (lower resumeText) cue

/-- `resume_is_senior`. -/
def resumeIsSenior (resumeText : String) : Bool :=
  seniorIndicatorsResume.any fun cue => containsCue (lower resumeText) cue

/-- Seniority alignment sub-bonus: the `seniority_bonus` cascade of
`_compute_context_bonus` (scoring.py lines 136-159). -/
def seniorityBonus (jdText resumeText : String) : ℚ :=
  if jdIsJunior jdText && !(jdIsSenior jdText) then
    if resumeIsJunior resumeText && !(resumeIsSenior resumeText) then 8/100
    else if resumeIsSenior resumeText then -5/100
    else 2/100
  else if jdIsSenior jdText && !(jdIsJunior jdText) then
    if resumeIsSenior resumeText then 8/100
    else if resumeIsJunior resumeText then -8/100
    else 0
  else 2/100

/-- Years matched in the JD by the four `jd_years_patterns`, in pattern order. -/
def jdYears (jdText : String) : List Nat :=
  let t := lower jdText
  scanAll matchP1 t ++ scanAll matchP2 t ++ scanAll matchP3 t ++ scanAll matchP4 t

/-- Years collected from the resume: explicit `<N>+ years [of] experience`
mentions, then spans of date ranges `<YYYY> - present|current|<YYYY>` with
an open end defaulting to the current year, kept when `end > start` and
`start > 1990` (scoring.py lines 191-213). -/
def resumeYears (resumeText : String) (currentYear : Nat) : List Nat :=
  let t := lower resumeText
  let explicitYears := scanAll matchP1 t
  let spans := (scanAll matchDate t).filterMap fun se =>
    let s := se.1
    let e := se.2.getD currentYear
    if s < e ∧ 1990 < s then some (e - s) else none
  explicitYears ++ spans

/-- Maximum of a list of naturals (Python `max`, used only on non-empty lists). -/
def maxNat (l : List Nat) : Nat := l.foldl max 0

/-- `_extract_years_bonus`, with `datetime.now().year` made the explicit
`currentYear` argument. -/
def extractYearsBonus (jdText resumeText : String) (currentYear : Nat) : ℚ :=
  if jdYears jdText = [] ∨ resumeYears resumeText currentYear = [] then 0
  else if maxNat (resumeYears resumeText currentYear) ≥ maxNat (jdYears jdText) then 2/100
  else if (maxNat (resumeYears resumeText currentYear) : ℚ) ≥
      (maxNat (jdYears jdText) : ℚ) * (7/10) then 1/100
  else -2/100

/-- `domain_keywords` table of `_compute_domain_alignment`. -/
def domainKeywordTable : List (String × List String) :=
  [("fintech", ["finance", "banking", "trading", "payment", "fintech", "cryptocurrency", "blockchain"]),
   ("healthcare", ["healthcare", "medical", "hospital", "patient", "clinical", "pharma", "biotech"]),
   ("ecommerce", ["ecommerce", "e-commerce", "retail", "shopping", "marketplace", "commerce"]),
   ("saas", ["saas", "b2b", "enterprise", "subscription", "platform"]),
   ("gaming", ["gaming", "game", "unity", "unreal", "mobile games", "console"]),
   ("security", ["security", "cybersecurity", "infosec", "penetration", "vulnerability", "encryption"]),
   ("data", ["data science", "analytics", "big data", "machine learning", "ai", "ml"]),
   ("mobile", ["mobile", "ios", "android", "react native", "flutter", "swift", "kotlin"])]

/-- Domains whose keyword list has some member occurring in the text. -/
def domainsOf (text : String) : List String :=
  let t := lower text
  domainKeywordTable.filterMap fun entry =>
    if entry.2.any (fun kw => containsCue t kw) then some entry.1 else none

/-- `_compute_domain_alignment`: 0 when the JD names no domain, +0.02 on a
non-empty overlap, −0.01 otherwise. -/
def computeDomainAlignment (jdText resumeText : String) : ℚ :=
  if domainsOf jdText = [] then 0
  else if (domainsOf jdText).any (fun d => (domainsOf resumeText).contains d) then 2/100
  else -1/100

/-- `_compute_context_bonus`: sum of the three sub-signals clamped to
[-0.1, 0.1]. -/
def computeContextBonus (jdText resumeText : String) (currentYear : Nat) : ℚ :=
  max (-(1/10)) (min (1/10)
    (seniorityBonus jdText resumeText
      + extractYearsBonus jdText resumeText currentYear
      + computeDomainAlignment jdText resumeText))

/-- Python's `round` on an exact rational: nearest integer, ties to even. -/
def pyRound (q : ℚ) : ℤ :=
  if q - (⌊q⌋ : ℚ) < 1/2 then ⌊q⌋
  else if (1/2 : ℚ) < q - (⌊q⌋ : ℚ) then ⌊q⌋ + 1
  else if ⌊q⌋ % 2 = 0 then ⌊q⌋ else ⌊q⌋ + 1

/-- `round(q, 3)`: round to three decimal places. -/
def round3 (q : ℚ) : ℚ := (pyRound (q * 1000) : ℚ) / 1000

/-- Keyword recall (`compute_score` lines 33-36). -/
def rawRecall (jdKeywords foundKeywords : List String) : ℚ :=
  if jdKeywords ≠ [] then (foundKeywords.length : ℚ) / (jdKeywords.length : ℚ) else 0

/-- Keyword precision (`compute_score` lines 40-44). -/
def rawPrecision (foundKeywords missingKeywords : List String) : ℚ :=
  let totalExtractedKeywords := foundKeywords.length + missingKeywords.length
  if 0 < totalExtractedKeywords then
    (foundKeywords.length : ℚ) / (totalExtractedKeywords : ℚ)
  else 0

/-- `max(0.0, min(1.0, q))`, the clamp to [0, 1] used for the semantic score. -/
def clamp01 (q : ℚ) : ℚ := max 0 (min 1 q)

/-- The `components` record returned by `compute_score`. -/
structure ScoreComponents where
  recallScore : ℚ
  precision : ℚ
  semantic : ℚ
  context : ℚ
deriving DecidableEq

/-- `compute_score` (success path): component breakdown rounded to three
decimals, and the weighted final score scaled to [0, 100]. -/
def computeScore (jdKeywords foundKeywords missingKeywords : List String)
    (semanticSimilarity : ℚ) (jdText resumeText : String) (currentYear : Nat) :
    ScoreComponents × ℤ :=
  let recallScore := rawRecall jdKeywords foundKeywords
  let precision := rawPrecision foundKeywords missingKeywords
  let semanticScore := clamp01 semanticSimilarity
  let contextBonus := computeContextBonus jdText resumeText currentYear
  let components : ScoreComponents :=
    { recallScore := round3 recallScore, precision := round3 precision,
      semantic := round3 semanticScore, context := round3 contextBonus }
  let weightedScore :=
    (0.40 : ℚ) * recallScore + (0.15 : ℚ) * precision +
    (0.35 : ℚ) * semanticScore + (0.10 : ℚ) * contextBonus
  let finalScore : ℤ := max 0 (min 100 (pyRound (weightedScore * 100)))
  (components, finalScore)

/-- Zero-valued components of the `except` branch of `compute_score`. -/
def zeroComponents : ScoreComponents :=
  { recallScore := 0, precision := 0, semantic := 0, context := 0 }

/-- The `try/except` wrapper of `compute_score` (scoring.py lines 30, 78-86):
the body's outcome, a value or an absorbed fault with its diagnostic
message, is turned into a total result. -/
def computeScoreRescue (r : Except String (ScoreComponents × ℤ)) :
    ScoreComponents × ℤ :=
  match r with
  | Except.ok v => v
  | Except.error _ => (zeroComponents, 0)

/-- `found_keywords` as the orchestrator builds it (main.py line 100). -/
def foundKeywordsOf (jdKeywords : List String) (resumeText : String) : List String :=
  jdKeywords.filter fun k => isInfixL (lower k) (lower resumeText)

/-- `missing_keywords` as the orchestrator builds it (main.py line 101). -/
def missingKeywordsOf (jdKeywords : List String) (resumeText : String) : List String :=
  jdKeywords.filter fun k => !(isInfixL (lower k) (lower resumeText))

/-- `get_score_explanation` (scoring.py lines 277-317). -/
def getScoreExplanation (components : ScoreComponents) (score : ℤ) : String :=
  let recallText : String :=
    if components.recallScore ≥ 8/10 then ("Excellent keyword coverage")
    else if components.recallScore ≥ 6/10 then ("Good keyword coverage")
    else if components.recallScore ≥ 4/10 then ("Moderate keyword coverage")
    else ("Low keyword coverage")
  let semanticText : String :=
    if components.semantic ≥ 7/10 then ("strong semantic alignment")
    else if components.semantic ≥ 5/10 then ("moderate semantic alignment")
    else ("weak semantic alignment")
  let explanations : List String :=
    if components.context > 5/100 then
      [recallText, semanticText, ("good seniority/domain fit")]
    else if components.context < -(5/100) then
      [recallText, semanticText, ("seniority/domain mismatch")]
    else [recallText, semanticText]
  ("Score ") ++ toString score ++ ("%: ") ++ String.intercalate (", ") explanations ++ (".")

example : seniorityBonus ("senior engineer role") ("senior dev, led team") = 8/100 := by
  with_unfolding_all decide
example : computeContextBonus ("") ("") 2024 = 2/100 := by with_unfolding_all decide
example : extractYearsBonus ("5+ years experience") ("2019 - present") 2024 = 2/100 := by
  with_unfolding_all decide
example : extractYearsBonus ("5+ years experience") ("2019 - present") 2023 = 1/100 := by
  with_unfolding_all decide
example :
    (computeScore [("python"), ("aws"), ("docker")] [("python")] [("aws"), ("docker")]
      (1/2) ("") ("") 2024).2 = 36 := by with_unfolding_all decide
example :
    (computeScore [("python"), ("aws"), ("docker")] [("python")] [("aws"), ("docker")]
      (1/2) ("") ("") 2024).1 =
      { recallScore := 333/1000, precision := 333/1000, semantic := 1/2, context := 1/50 } := by
  with_unfolding_all decide
example :
    getScoreExplanation { recallScore := 9/10, precision := 0, semantic := 8/10, context := 6/100 } 85 =
      ("Score 85%: Excellent keyword coverage, strong semantic alignment, good seniority/domain fit.") := by
  with_unfolding_all decide

theorem pyRound_zero : pyRound 0 = 0 := by with_unfolding_all decide

theorem pyRound_hundred : pyRound 100 = 100 := by with_unfolding_all decide

/-- `pyRound` never rounds below an integer lower bound. -/
theorem le_pyRound {n : ℤ} {q : ℚ} (h : (n : ℚ) ≤ q) : n ≤ pyRound q := by
  have hfn : n ≤ ⌊q⌋ := Int.le_floor.mpr h
  unfold pyRound
  split_ifs <;> omega

/-- `pyRound` never rounds above an integer upper bound. -/
theorem pyRound_le {n : ℤ} {q : ℚ} (h : q ≤ (n : ℚ)) : pyRound q ≤ n := by
  have hfn : ⌊q⌋ ≤ n := by
    have h2 := Int.floor_le_floor h
    rwa [Int.floor_intCast] at h2
  have hkey : ⌊q⌋ + 1 ≤ n ∨ q - (⌊q⌋ : ℚ) < 1/2 := by
    rcases lt_or_eq_of_le hfn with hlt | heq
    · exact Or.inl (by omega)
    · right
      rw [heq]
      linarith
  rcases hkey with hk | hk
  · unfold pyRound
    split_ifs <;> omega
  · unfold pyRound
    rw [if_pos hk]
    exact hfn

/-- Clamping the final score into [0, 100] after scaling agrees with
clamping the weighted sum into [0, 1] before scaling. -/
theorem clampRoundScale (w : ℚ) :
    max 0 (min 100 (pyRound (w * 100))) = pyRound (100 * clamp01 w) := by
  rcases le_or_lt w 0 with h0 | h0
  · have hc : clamp01 w = 0 := by
      unfold clamp01
      rw [min_eq_right (h0.trans (by norm_num)), max_eq_left h0]
    have hle : pyRound (w * 100) ≤ (0 : ℤ) := by
      apply pyRound_le
      push_cast
      nlinarith
    rw [hc, mul_zero, pyRound_zero]
    rw [min_eq_right (hle.trans (by norm_num)), max_eq_left hle]
  · rcases le_or_lt 1 w with h1 | h1
    · have hc : clamp01 w = 1 := by
        unfold clamp01
        rw [min_eq_left h1, max_eq_right (by norm_num : (0:ℚ) ≤ 1)]
      have hge : (100 : ℤ) ≤ pyRound (w * 100) := by
        apply le_pyRound
        push_cast
        nlinarith
      rw [hc, mul_one, pyRound_hundred]
      rw [min_eq_left hge, max_eq_right (by norm_num : (0:ℤ) ≤ 100)]
    · have hc : clamp01 w = w := by
        unfold clamp01
        rw [min_eq_right h1.le, max_eq_right h0.le]
      have hge : (0 : ℤ) ≤ pyRound (w * 100) := by
        apply le_pyRound
        push_cast
        nlinarith
      have hle : pyRound (w * 100) ≤ (100 : ℤ) := by
        apply pyRound_le
        push_cast
        nlinarith
      rw [hc, mul_comm 100 w, min_eq_right hle, max_eq_right hge]

/-- C1: for every input tuple, `compute_score` returns a final score equal to
`round(100 * clamp01(0.40*recall + 0.15*precision + 0.35*semantic + 0.10*context))`,
the weighted sum of the four components scaled by 100, rounded to nearest
integer and clamped to [0, 100], where the context component is the context
bonus already clamped to [-0.1, 0.1] by `_compute_context_bonus`. -/
theorem computeScore_final_formula
    (jdKeywords foundKeywords missingKeywords : List String)
    (semanticSimilarity : ℚ) (jdText resumeText : String) (currentYear : Nat) :
    (computeScore jdKeywords foundKeywords missingKeywords semanticSimilarity
        jdText resumeText currentYear).2 =
      pyRound (100 * clamp01
        ((0.40 : ℚ) * rawRecall jdKeywords foundKeywords
          + (0.15 : ℚ) * rawPrecision foundKeywords missingKeywords
          + (0.35 : ℚ) * clamp01 semanticSimilarity
          + (0.10 : ℚ) * computeContextBonus jdText resumeText currentYear)) :=
  clampRoundScale _

/-- C2 counterexample: at Scenario A's input (three JD keywords, one found,
semantic similarity 0.5, cue-free texts) the final score is not the claimed
31 — the weighted sum is 0.3603…, not 0.3063. -/
theorem computeScore_scenarioA_not31 :
    (computeScore [("python"), ("aws"), ("docker")] [("python")] [("aws"), ("docker")]
      (1/2) ("") ("") 2024).2 ≠ 31 := by
  with_unfolding_all decide

/-- C2 (amended): at Scenario A's input, for any ambient calendar year,
`compute_score` returns components recall = 0.333, precision = 0.333,
semantic = 0.5, context = 0.02 and final score 36. -/
theorem computeScore_scenarioA (currentYear : Nat) :
    computeScore [("python"), ("aws"), ("docker")] [("python")] [("aws"), ("docker")]
        (1/2) ("") ("") currentYear =
      ({ recallScore := 333/1000, precision := 333/1000,
         semantic := 1/2, context := 1/50 }, 36) := by
  have hy : extractYearsBonus ("") ("") currentYear = 0 := by
    have h : jdYears ("") = [] ∨ resumeYears ("") currentYear = [] := Or.inl rfl
    unfold extractYearsBonus
    rw [if_pos h]
  simp only [computeScore, computeContextBonus]
  rw [hy]
  with_unfolding_all decide

/-- The orchestrator's partition keeps every JD keyword in exactly one of
the found/missing lists. -/
theorem foundMissingLength (jdKeywords : List String) (resumeText : String) :
    (foundKeywordsOf jdKeywords resumeText).length
      + (missingKeywordsOf jdKeywords resumeText).length = jdKeywords.length := by
  unfold foundKeywordsOf missingKeywordsOf
  exact (List.length_eq_length_filter_add _).symm

/-- C3: whenever the found/missing lists are the orchestrator's partition of
the JD keywords by lowercase substring occurrence in the resume text, the
precision component returned by `compute_score` equals the recall
component. -/
theorem computeScore_precision_eq_recall
    (jdKeywords : List String) (semanticSimilarity : ℚ)
    (jdText resumeText : String) (currentYear : Nat) :
    (computeScore jdKeywords (foundKeywordsOf jdKeywords resumeText)
        (missingKeywordsOf jdKeywords resumeText) semanticSimilarity
        jdText resumeText currentYear).1.precision =
      (computeScore jdKeywords (foundKeywordsOf jdKeywords resumeText)
        (missingKeywordsOf jdKeywords resumeText) semanticSimilarity
        jdText resumeText currentYear).1.recallScore := by
  show round3 (rawPrecision (foundKeywordsOf jdKeywords resumeText)
      (missingKeywordsOf jdKeywords resumeText)) =
    round3 (rawRecall jdKeywords (foundKeywordsOf jdKeywords resumeText))
  congr 1
  unfold rawPrecision rawRecall
  rw [foundMissingLength]
  rcases eq_or_ne jdKeywords [] with he | he
  · subst he
    norm_num
  · rw [if_pos (List.length_pos.mpr he), if_pos he]

/-- C4: the seniority sub-bonus follows the documented policy table over the
four independent cue booleans: JD junior-only rows give +0.08 / −0.05 /
+0.02, JD senior-only rows give +0.08 / −0.08 / 0.0, and a JD matching both
cue sets or neither gives +0.02. -/
theorem seniorityBonus_policy (jdText resumeText : String) :
    (jdIsJunior jdText = true → jdIsSenior jdText = false →
      resumeIsJunior resumeText = true → resumeIsSenior resumeText = false →
      seniorityBonus jdText resumeText = 8/100)
  ∧ (jdIsJunior jdText = true → jdIsSenior jdText = false →
      resumeIsSenior resumeText = true →
      seniorityBonus jdText resumeText = -5/100)
  ∧ (jdIsJunior jdText = true → jdIsSenior jdText = false →
      resumeIsJunior resumeText = false → resumeIsSenior resumeText = false →
      seniorityBonus jdText resumeText = 2/100)
  ∧ (jdIsSenior jdText = true → jdIsJunior jdText = false →
      resumeIsSenior resumeText = true →
      seniorityBonus jdText resumeText = 8/100)
  ∧ (jdIsSenior jdText = true → jdIsJunior jdText = false →
      resumeIsJunior resumeText = true → resumeIsSenior resumeText = false →
      seniorityBonus jdText resumeText = -8/100)
  ∧ (jdIsSenior jdText = true → jdIsJunior jdText = false →
      resumeIsJunior resumeText = false → resumeIsSenior resumeText = false →
      seniorityBonus jdText resumeText = 0)
  ∧ (jdIsJunior jdText = jdIsSenior jdText →
      seniorityBonus jdText resumeText = 2/100) := by
  refine ⟨?_, ?_, ?_, ?_, ?_, ?_, ?_⟩
  · intro h1 h2 h3 h4
    simp [seniorityBonus, h1, h2, h3, h4]
  · intro h1 h2 h3
    simp [seniorityBonus, h1, h2, h3]
  · intro h1 h2 h3 h4
    simp [seniorityBonus, h1, h2, h3, h4]
  · intro h1 h2 h3
    simp [seniorityBonus, h1, h2, h3]
  · intro h1 h2 h3 h4
    simp [seniorityBonus, h1, h2, h3, h4]
  · intro h1 h2 h3 h4
    simp [seniorityBonus, h1, h2, h3, h4]
  · intro h
    cases hj : jdIsJunior jdText with
    | false =>
      have hs : jdIsSenior jdText = false := by rw [← h]; exact hj
      simp [seniorityBonus, hj, hs]
    | true =>
      have hs : jdIsSenior jdText = true := by rw [← h]; exact hj
      simp [seniorityBonus, hj, hs]

/-- C4 witness: a junior-only JD against a junior-only resume earns the
+0.08 row of the policy table. -/
theorem seniorityBonus_policy_witness :
    seniorityBonus ("junior developer role") ("intern at a studio") = 8/100 :=
  (seniorityBonus_policy ("junior developer role") ("intern at a studio")).1
    (by decide) (by decide) (by decide) (by decide)

/-- C5: the years sub-bonus compares the maxima of the years extracted by the
documented JD and resume patterns — 0.0 when either side is empty, +0.02 when
`resumeMax >= jdMax`, +0.01 when `resumeMax >= 0.7*jdMax`, −0.02 otherwise —
and a resume "2019 - present" at current year 2024 against a JD
"5+ years experience" yields +0.02. -/
theorem extractYearsBonus_spec :
    (∀ (jdText resumeText : String) (currentYear : Nat),
        (jdYears jdText = [] ∨ resumeYears resumeText currentYear = [] →
          extractYearsBonus jdText resumeText currentYear = 0)
      ∧ (jdYears jdText ≠ [] → resumeYears resumeText currentYear ≠ [] →
          extractYearsBonus jdText resumeText currentYear =
            if maxNat (resumeYears resumeText currentYear) ≥ maxNat (jdYears jdText)
              then 2/100
            else if (maxNat (resumeYears resumeText currentYear) : ℚ) ≥
                (maxNat (jdYears jdText) : ℚ) * (7/10) then 1/100
            else -2/100))
  ∧ jdYears ("5+ years experience") = [5]
  ∧ resumeYears ("2019 - present") 2024 = [5]
  ∧ extractYearsBonus ("5+ years experience") ("2019 - present") 2024 = 2/100 := by
  refine ⟨fun jdText resumeText currentYear => ⟨?_, ?_⟩,
    by decide, by decide, by with_unfolding_all decide⟩
  · intro h
    unfold extractYearsBonus
    rw [if_pos h]
  · intro h1 h2
    unfold extractYearsBonus
    rw [if_neg (not_or.mpr ⟨h1, h2⟩)]

/-- C5 witness: the years-bonus characterization applied at concrete inputs,
once with an empty JD side and once at Scenario D. -/
theorem extractYearsBonus_spec_witness :
    extractYearsBonus ("") ("") 2024 = 0
  ∧ extractYearsBonus ("5+ years experience") ("2019 - present") 2024 = 2/100 := by
  constructor
  · exact (extractYearsBonus_spec.1 ("") ("") 2024).1 (Or.inl (by decide))
  · have h := (extractYearsBonus_spec.1 ("5+ years experience") ("2019 - present") 2024).2
      (by decide) (by decide)
    rw [h]
    with_unfolding_all decide

/-- The seniority sub-bonus stays inside the context band [-0.1, 0.1]. -/
theorem seniorityBonus_bounds (jdText resumeText : String) :
    -(1/10) ≤ seniorityBonus jdText resumeText ∧ seniorityBonus jdText resumeText ≤ 1/10 := by
  unfold seniorityBonus
  split_ifs <;> norm_num

/-- The years sub-bonus stays inside the context band [-0.1, 0.1]. -/
theorem extractYearsBonus_bounds (jdText resumeText : String) (currentYear : Nat) :
    -(1/10) ≤ extractYearsBonus jdText resumeText currentYear
      ∧ extractYearsBonus jdText resumeText currentYear ≤ 1/10 := by
  unfold extractYearsBonus
  split_ifs <;> norm_num

/-- The domain sub-bonus stays inside the context band [-0.1, 0.1]. -/
theorem computeDomainAlignment_bounds (jdText resumeText : String) :
    -(1/10) ≤ computeDomainAlignment jdText resumeText
      ∧ computeDomainAlignment jdText resumeText ≤ 1/10 := by
  unfold computeDomainAlignment
  split_ifs <;> norm_num

/-- C6: the context bonus equals the sum of the three sub-signals clamped to
[-0.1, 0.1], hence always lies in that band, and whenever two sub-signals
are neutral (0) it equals the remaining sub-signal's contribution. -/
theorem computeContextBonus_spec (jdText resumeText : String) (currentYear : Nat) :
    (computeContextBonus jdText resumeText currentYear =
        max (-(1/10)) (min (1/10)
          (seniorityBonus jdText resumeText
            + extractYearsBonus jdText resumeText currentYear
            + computeDomainAlignment jdText resumeText)))
  ∧ -(1/10) ≤ computeContextBonus jdText resumeText currentYear
  ∧ computeContextBonus jdText resumeText currentYear ≤ 1/10
  ∧ (extractYearsBonus jdText resumeText currentYear = 0 →
      computeDomainAlignment jdText resumeText = 0 →
      computeContextBonus jdText resumeText currentYear = seniorityBonus jdText resumeText)
  ∧ (seniorityBonus jdText resumeText = 0 →
      computeDomainAlignment jdText resumeText = 0 →
      computeContextBonus jdText resumeText currentYear =
        extractYearsBonus jdText resumeText currentYear)
  ∧ (seniorityBonus jdText resumeText = 0 →
      extractYearsBonus jdText resumeText currentYear = 0 →
      computeContextBonus jdText resumeText currentYear =
        computeDomainAlignment jdText resumeText) := by
  refine ⟨rfl, le_max_left _ _, ?_, ?_, ?_, ?_⟩
  · exact max_le (by norm_num) (min_le_left _ _)
  · intro hy hd
    unfold computeContextBonus
    rw [hy, hd, add_zero, add_zero]
    rw [min_eq_right (seniorityBonus_bounds jdText resumeText).2,
      max_eq_right (seniorityBonus_bounds jdText resumeText).1]
  · intro hs hd
    unfold computeContextBonus
    rw [hs, hd, zero_add, add_zero]
    rw [min_eq_right (extractYearsBonus_bounds jdText resumeText currentYear).2,
      max_eq_right (extractYearsBonus_bounds jdText resumeText currentYear).1]
  · intro hs hy
    unfold computeContextBonus
    rw [hs, hy, zero_add, zero_add]
    rw [min_eq_right (computeDomainAlignment_bounds jdText resumeText).2,
      max_eq_right (computeDomainAlignment_bounds jdText resumeText).1]

/-- C6 witness: on empty texts the years and domain sub-signals are neutral,
so the context bonus is exactly the seniority sub-bonus. -/
theorem computeContextBonus_spec_witness :
    computeContextBonus ("") ("") 2024 = seniorityBonus ("") ("") :=
  (computeContextBonus_spec ("") ("") 2024).2.2.2.1
    (by with_unfolding_all decide) (by with_unfolding_all decide)

/-- C7: the `try/except` wrapper of `compute_score` absorbs any internal
fault: an error outcome is answered with the zero-valued components and a
final score of 0, and a success outcome passes through unchanged, so the
caller always receives a complete, well-typed result. -/
theorem computeScoreRescue_spec :
    (∀ diagnostic : String,
        computeScoreRescue (Except.error diagnostic) = (zeroComponents, 0))
  ∧ (∀ (jdKeywords foundKeywords missingKeywords : List String)
        (semanticSimilarity : ℚ) (jdText resumeText : String) (currentYear : Nat),
        computeScoreRescue (Except.ok (computeScore jdKeywords foundKeywords
            missingKeywords semanticSimilarity jdText resumeText currentYear)) =
          computeScore jdKeywords foundKeywords missingKeywords semanticSimilarity
            jdText resumeText currentYear) :=
  ⟨fun _ => rfl, fun _ _ _ _ _ _ _ => rfl⟩

/-- Recall label thresholds as the spec words them. -/
def recallLabel (recallValue : ℚ) : String :=
  if recallValue ≥ 8/10 then ("Excellent keyword coverage")
  else if recallValue ≥ 6/10 then ("Good keyword coverage")
  else if recallValue ≥ 4/10 then ("Moderate keyword coverage")
  else ("Low keyword coverage")

/-- Semantic label thresholds as the spec words them. -/
def semanticLabel (semanticValue : ℚ) : String :=
  if semanticValue ≥ 7/10 then ("strong semantic alignment")
  else if semanticValue ≥ 5/10 then ("moderate semantic alignment")
  else ("weak semantic alignment")

/-- Context clause of the explanation: appended only outside (-0.05, 0.05]. -/
def contextClauses (contextValue : ℚ) : List String :=
  if contextValue > 5/100 then [("good seniority/domain fit")]
  else if contextValue < -(5/100) then [("seniority/domain mismatch")]
  else []

/-- C8: `get_score_explanation` is the deterministic mapping from the
components record to "Score {score}%: " followed by the threshold-selected
clauses joined by ", " and a final period, and Scenario E produces exactly
the documented sentence. -/
theorem getScoreExplanation_spec (components : ScoreComponents) (score : ℤ) :
    (getScoreExplanation components score =
      ("Score ") ++ toString score ++ ("%: ")
        ++ String.intercalate (", ")
            ([recallLabel components.recallScore, semanticLabel components.semantic]
              ++ contextClauses components.context)
        ++ ("."))
  ∧ getScoreExplanation
        { recallScore := 9/10, precision := 0, semantic := 8/10, context := 6/100 } 85 =
      ("Score 85%: Excellent keyword coverage, strong semantic alignment, good seniority/domain fit.") := by
  constructor
  · simp only [getScoreExplanation, recallLabel, semanticLabel, contextClauses]
    split_ifs <;> simp
  · with_unfolding_all decide

/-- C9 counterexample: the same six-tuple scored at ambient years 2023 and
2024 yields different results (the context component is 0.01 vs 0.02),
because `_extract_years_bonus` reads `datetime.now().year`. -/
theorem computeScore_ambient_year_dependence :
    computeScore [] [] [] 0 ("5+ years experience") ("2019 - present") 2023 ≠
      computeScore [] [] [] 0 ("5+ years experience") ("2019 - present") 2024 := by
  with_unfolding_all decide

/-- C9 (amended): `compute_score` is deterministic in the six-tuple together
with the ambient calendar year, and the year influences the result only
through the years sub-bonus: whenever the years sub-bonus agrees at two
ambient years, the entire result agrees. -/
theorem computeScore_deterministic_given_yearsBonus
    (jdKeywords foundKeywords missingKeywords : List String)
    (semanticSimilarity : ℚ) (jdText resumeText : String) (year1 year2 : Nat)
    (h : extractYearsBonus jdText resumeText year1 =
      extractYearsBonus jdText resumeText year2) :
    computeScore jdKeywords foundKeywords missingKeywords semanticSimilarity
        jdText resumeText year1 =
      computeScore jdKeywords foundKeywords missingKeywords semanticSimilarity
        jdText resumeText year2 := by
  simp only [computeScore, computeContextBonus, h]

/-- C9 witness: with no date cues the years sub-bonus agrees across years,
so scoring is unchanged from 2023 to 2024. -/
theorem computeScore_deterministic_given_yearsBonus_witness :
    computeScore [] [] [] 0 ("") ("") 2023 = computeScore [] [] [] 0 ("") ("") 2024 :=
  computeScore_deterministic_given_yearsBonus [] [] [] 0 ("") ("") 2023 2024
    (by with_unfolding_all decide)

/-- A 110-keyword JD with 3 found keywords: recall 3/110 rounds to 0.027 in
the reported record while the final score is computed unrounded. -/
def roundingGapExample : ScoreComponents × ℤ :=
  computeScore (List.replicate 110 ("k")) (List.replicate 3 ("k"))
    (List.replicate 107 ("k")) 0 ("senior") ("") 2024

/-- C10: the reported components are each rounded to 3 decimal places while
the final score is computed from the unrounded values, and for the
110-keyword example recomputing the weighted score from the rounded record
(giving round(1.485) = 1) does not reproduce the returned final score
(round(1.5) = 2). -/
theorem computeScore_components_rounding :
    (∀ (jdKeywords foundKeywords missingKeywords : List String)
        (semanticSimilarity : ℚ) (jdText resumeText : String) (currentYear : Nat),
        (computeScore jdKeywords foundKeywords missingKeywords semanticSimilarity
            jdText resumeText currentYear).1 =
          { recallScore := round3 (rawRecall jdKeywords foundKeywords),
            precision := round3 (rawPrecision foundKeywords missingKeywords),
            semantic := round3 (clamp01 semanticSimilarity),
            context := round3 (computeContextBonus jdText resumeText currentYear) })
  ∧ pyRound (100 * ((0.40 : ℚ) * roundingGapExample.1.recallScore
        + (0.15 : ℚ) * roundingGapExample.1.precision
        + (0.35 : ℚ) * roundingGapExample.1.semantic
        + (0.10 : ℚ) * roundingGapExample.1.context))
      ≠ roundingGapExample.2 := by
  refine ⟨fun _ _ _ _ _ _ _ => rfl, ?_⟩
  with_unfolding_all decide
